import Mathlib

/-!
# Verification of gh-skyline core logic

Shallow embedding of the gh-skyline repository's core functions:
the year-range utilities (`utils` package), the height classifier and
ASCII renderer (`ascii` package, modelled from the spec where the source
is absent), the image rasterizer's pixel filter (`geometry` package),
and the per-year orchestration of `GenerateSkyline` (`skyline` package).
Integer arithmetic is embedded as `Int`/`Nat` (Go `int` overflow is
irrelevant at the year/count magnitudes involved); the classifier's
normalized value is embedded as an exact rational.
-/

namespace GhSkyline

/-! ## utils package: year-range parsing, validation and formatting -/

/-- GitHub launch year constant (`githubLaunchYear = 2008`). -/
def githubLaunchYear : Int := 2008

/-- Embeds Go `strconv.Atoi`: an optional sign followed by at least one
decimal digit, nothing else. Returns `none` on any malformed input.
(Go's 64-bit overflow is not modelled; all inputs of interest are small.) -/
def atoi (s : String) : Option Int :=
  match s.toList with
  | [] => none
  | '+' :: rest => if rest ≠ [] ∧ rest.all Char.isDigit
                   then some (digitsVal rest) else none
  | '-' :: rest => if rest ≠ [] ∧ rest.all Char.isDigit
                   then some (-(digitsVal rest)) else none
  | l => if l.all Char.isDigit then some (digitsVal l) else none
where
  /-- Value of a digit string, most significant first. -/
  digitsVal (l : List Char) : Int :=
    l.foldl (fun acc c => acc * 10 + (c.toNat - '0'.toNat : Nat)) 0

/-- Embeds `validateYearRange`: errors unless both years lie between
`githubLaunchYear` and `currentYear` and the start is not after the end.
`time.Now().Year()` is passed in as the `currentYear` parameter. -/
def validateYearRange (currentYear startYear endYear : Int) : Option String :=
  if startYear < githubLaunchYear ∨ endYear > currentYear then
    some ("years must be between " ++ toString githubLaunchYear ++ " and "
          ++ toString currentYear)
  else if startYear > endYear then
    some "start year cannot be after end year"
  else
    none

/-- Embeds Go `strings.Split` for a single-character separator: the
list of maximal separator-free segments, so a string without the
separator yields one part and each separator occurrence starts a new
(possibly empty) part. -/
def splitOnChar (sep : Char) : List Char → List (List Char)
  | [] => [[]]
  | c :: rest =>
    match splitOnChar sep rest with
    | [] => [[c]]
    | p :: ps => if c = sep then [] :: p :: ps else (c :: p) :: ps

/-- Embeds `ParseYearRange`: splits on `-` when present (Go
`strings.Contains` / `strings.Split`), requires exactly two parts, parses
each part with `Atoi`, then validates. Returns either the error message
or the pair. -/
def ParseYearRange (currentYear : Int) (yearRange : String) :
    Except String (Int × Int) := do
  let (startYear, endYear) ←
    if yearRange.toList.contains '-' then
      let parts := (splitOnChar '-' yearRange.toList).map String.mk
      if parts.length ≠ 2 then
        throw "invalid year range format"
      else
        match atoi (parts.headD ""), atoi ((parts.drop 1).headD "") with
        | some s, some e => pure (s, e)
        | _, _ => throw "invalid syntax"
    else
      match atoi yearRange with
      | some y => pure (y, y)
      | none => throw "invalid syntax"
  match validateYearRange currentYear startYear endYear with
  | some msg => throw msg
  | none => pure (startYear, endYear)

/-- Left-pads a numeral with zeros, embedding Go's `%0Nd` verb for
non-negative arguments. -/
def padZeros (width : Nat) (n : Nat) : String :=
  let s := toString n
  String.mk (List.replicate (width - s.length) '0') ++ s

/-- Embeds `FormatYearRange`: the bare year when the two ends agree, else
`%04d-%02d` of the start year and the end year modulo 100. -/
def FormatYearRange (startYear endYear : Nat) : String :=
  if startYear = endYear then
    toString startYear
  else
    padZeros 4 startYear ++ "-" ++ padZeros 2 (endYear % 100)

/-- Embeds `strings.ToLower` on one character; the filenames of interest
are ASCII, where Go's Unicode lowering agrees with the ASCII case shift. -/
def charToLower (c : Char) : Char :=
  if 'A' ≤ c ∧ c ≤ 'Z' then Char.ofNat (c.toNat + 32) else c

/-- Embeds `GenerateOutputFilename`: a non-empty override is returned
as-is when it already ends in `.stl` case-insensitively, otherwise with
`.stl` appended; an empty override yields
`<user>-<years>-github-skyline.stl` via `FormatYearRange`. -/
def GenerateOutputFilename (user : String) (startYear endYear : Nat)
    (output : String) : String :=
  if output ≠ "" then
    if ¬ (".stl".toList.isSuffixOf (output.toList.map charToLower)) then
      output ++ ".stl"
    else
      output
  else
    user ++ "-" ++ FormatYearRange startYear endYear ++ "-github-skyline.stl"

/-! ## ascii package: height classifier and glyphs

The `ascii` package's implementation is not part of the source tree
(only its tests and its caller are), so the classifier is modelled from
the spec, constrained by the expectations of `TestGetBlock`. -/

/-- Height level of a day (spec §3): derived from the normalized count. -/
inductive HeightLevel where
  | sky
  | low
  | medium
  | high
deriving DecidableEq, Repr

/-- Numeric rank of a height level under the ordering
Sky < Low < Medium < High. -/
def HeightLevel.rank : HeightLevel → Nat
  | .sky => 0
  | .low => 1
  | .medium => 2
  | .high => 3

/-- Stacking role of a contributing day within its week (spec §3). -/
inductive StackRole where
  | foundation
  | middle
  | top
deriving DecidableEq, Repr

/-- Glyphs of the ASCII skyline (spec §4.2): a sky glyph, three
increasingly dense body glyphs shared by the Foundation and Middle
roles, three spire glyphs for the Top role, and the future placeholder. -/
inductive Glyph where
  | empty
  | body (level : HeightLevel)
  | spire (level : HeightLevel)
  | future
deriving DecidableEq, Repr

/-- The `ascii.EmptyBlock` glyph constant. -/
def EmptyBlock : Glyph := .empty

/-- The `ascii.FoundationLow` glyph constant: the low-density body glyph. -/
def FoundationLow : Glyph := .body .low

/-- The `ascii.FoundationMed` glyph constant. -/
def FoundationMed : Glyph := .body .medium

/-- The `ascii.FoundationHigh` glyph constant. -/
def FoundationHigh : Glyph := .body .high

/-- The `ascii.MiddleHigh` glyph constant: Middle shares the body glyphs. -/
def MiddleHigh : Glyph := .body .high

/-- The `ascii.TopMed` glyph constant: the medium spire glyph. -/
def TopMed : Glyph := .spire .medium

/-- Modelled from the spec: the level half of the missing `ascii`
classifier, on an already-normalized value. Sky when the value is 0, Low
when it is at most 1/3, Medium when at most 2/3, High beyond that.
The normalized value is an exact rational. -/
def levelOfNormalized (normalized : ℚ) : HeightLevel :=
  if normalized = 0 then .sky
  else if normalized ≤ 1/3 then .low
  else if normalized ≤ 2/3 then .medium
  else .high

/-- Modelled from the spec: `normalized = count / max(maxCount, 1)` for
the missing `ascii` classifier. -/
def normalize (count maxCount : ℕ) : ℚ :=
  (count : ℚ) / (max maxCount 1 : ℕ)

/-- Modelled from the spec: the missing `ascii` classifier's level for a
day's count given the grid maximum. -/
def classifyLevel (count maxCount : ℕ) : HeightLevel :=
  levelOfNormalized (normalize count maxCount)

/-- Modelled from the spec: the role half of the missing `ascii`
classifier (`getBlock`'s role choice). A day with normalized 0 gets no
block; otherwise index 0 among the week's non-zero days is Foundation,
the last non-zero index is Top, and anything between is Middle. -/
def getBlockRole (dayIndex nonZeroCount : ℕ) : StackRole :=
  if dayIndex = 0 then .foundation
  else if dayIndex = nonZeroCount - 1 then .top
  else .middle

/-- Modelled from the spec: the missing `ascii.getBlock`, selecting the
glyph for a day from its normalized value, its 0-based index among the
week's non-zero days, and the week's non-zero-day count. -/
def getBlock (normalized : ℚ) (dayIndex nonZeroCount : ℕ) : Glyph :=
  if normalized = 0 then EmptyBlock
  else
    match getBlockRole dayIndex nonZeroCount with
    | .top => .spire (levelOfNormalized normalized)
    | _ => .body (levelOfNormalized normalized)

/-! ## ascii package: renderer (modelled from the spec) -/

/-- A day of contribution data (`types.ContributionDay`): a count and a
date, the date embedded as a day ordinal so that chronological order is
numeric order. -/
structure ContributionDay where
  contributionCount : ℕ
  date : ℕ
deriving DecidableEq, Repr

/-- A week: the ordered contribution days of one column. -/
abbrev Week := List ContributionDay

/-- A contribution grid: the ordered weeks of one year. -/
abbrev Grid := List Week

/-- Severity classes of the error taxonomy (spec §7). -/
inductive ErrorKind where
  | validation
  | io
  | geometry
  | network
deriving DecidableEq, Repr

/-- One line of the rendered ASCII block: either header/footer text or a
row of grid glyphs. The rendered block in the program is a plain string;
the split keeps grid rows inspectable while reflecting that header and
footer text never contains the grid's glyph characters. -/
inductive AsciiLine where
  | text (s : String)
  | glyphs (gs : List Glyph)
deriving DecidableEq, Repr

/-- Modelled from the spec: the column of 7 glyph slots for one week in
the missing `ascii` renderer. Non-contributing days float to the top as
sky glyphs and contributing days stack from the bottom in chronological
order; a contributing day dated strictly after `today` shows the future
placeholder, any other contributing day the `getBlock` glyph for its
normalized count, stack index and the week's non-zero count. The column
is listed top to bottom. -/
def weekColumn (maxCount today : ℕ) (week : Week) : List Glyph :=
  let contributing := week.filter (fun d => d.contributionCount ≠ 0)
  let n := contributing.length
  let stack := contributing.mapIdx (fun k d =>
    if today < d.date then Glyph.future
    else getBlock (normalize d.contributionCount maxCount) k n)
  List.replicate (7 - n) Glyph.empty ++ stack.reverse

/-- Modelled from the spec: the missing `ascii.GenerateASCII`. Rejects a
grid with zero weeks with a validation error; otherwise renders one
glyph row per day slot with columns in week order, preceded by a
username/year header when requested and followed by a legend footer when
requested. -/
def GenerateASCII (grid : Grid) (user : String) (year : Int)
    (includeHeader includeFooter : Bool) (today : ℕ) :
    Except (ErrorKind × String) (List AsciiLine) :=
  if grid.isEmpty then
    Except.error (.validation, "grid cannot be empty")
  else
    let maxCount :=
      (grid.map (fun w => (w.map (·.contributionCount)).foldl max 0)).foldl max 0
    let columns := grid.map (weekColumn maxCount today)
    let gridLines := (List.range 7).map (fun r =>
      AsciiLine.glyphs (columns.map (fun c => c.getD r Glyph.empty)))
    let header :=
      if includeHeader then [AsciiLine.text (user ++ " " ++ toString year)] else []
    let footer := if includeFooter then [AsciiLine.text "legend"] else []
    Except.ok (header ++ gridLines ++ footer)

/-! ## skyline package: per-year orchestration (`GenerateSkyline`)

`GenerateSkyline` splits the rendered ASCII block on newlines and scans
each line's characters with `strings.Contains` and `strings.Trim`, so
this part is embedded at the character level: a line is a `List Char`.
The glyph characters are fixed by the program's help text (root.go
legend): `ascii.EmptyBlock` is the space character `' '`, the
low/medium/high body glyphs (Foundation and Middle) are `'░'`, `'▒'`
and `'▓'` — so `ascii.FoundationLow` is `'░'` — the future placeholder
is `'.'` and the top glyphs are `'╻'`, `'┃'` and `'╽'`. Header and
footer text can therefore satisfy the character search: it contains
spaces, and the footer legend even contains `'░'`. -/

/-- Embeds `strings.Trim(line, string(ascii.EmptyBlock))`: the line with
leading and trailing space characters removed (`EmptyBlock` is the space
character). -/
def trimEmptyBlocks (l : List Char) : List Char :=
  ((l.dropWhile (· == ' ')).reverse.dropWhile (· == ' ')).reverse

/-- Embeds the grid-start test of `GenerateSkyline`'s subsequent-year
branch on one line: `strings.Contains(line, string(ascii.EmptyBlock)) ||
strings.Contains(line, string(ascii.FoundationLow))`, i.e. the line
contains a space or a `'░'`, and `strings.Trim(line,
string(ascii.EmptyBlock)) != ""`, i.e. it is not made solely of
spaces. -/
def lineStartsGrid (l : List Char) : Bool :=
  (l.contains ' ' || l.contains '░') && !(trimEmptyBlocks l).isEmpty

/-- Embeds `GenerateSkyline`'s `gridStart` computation: the index of the
first line passing `lineStartsGrid`, or 0 when no line passes (the loop
variable keeps its initial value). -/
def gridStartIdx (lines : List (List Char)) : ℕ :=
  (lines.findIdx? lineStartsGrid).getD 0

/-- Embeds the printed portion of one year's ASCII art in
`GenerateSkyline`: the first year prints the art in full, every later
year prints from `gridStart` on. -/
def printedForYear (isFirstYear : Bool) (lines : List (List Char)) : List (List Char) :=
  if isFirstYear then lines else lines.drop (gridStartIdx lines)

/-- The spec's detection rule for the start of the grid portion, written
from the spec's words for comparison with `gridStartIdx`: a line
containing a body (Foundation/Middle) glyph `'░'`, `'▒'` or `'▓'`. -/
def lineHasBodyGlyph (l : List Char) : Bool :=
  l.any (fun c => c == '░' || c == '▒' || c == '▓')

/-- Embeds `GenerateSkyline`'s per-year loop. For each year in order:
fetch the contribution grid (a fetch failure aborts the whole call);
generate the ASCII preview, a failure of which is recorded as a warning
for that year and nothing more. Returns the accumulated
`allContributions` grids alongside the years that produced warnings.
The ASCII generator is abstracted as a parameter (it receives the grid,
the year and the first-year flag) and `log.Warning` is modelled as
recording the year; the printing of successful previews is pure output,
modelled separately by `printedForYear`. -/
def processYears (fetch : Int → Except (ErrorKind × String) Grid)
    (genAscii : Grid → Int → Bool → Except (ErrorKind × String) (List AsciiLine))
    (startYear : Int) :
    List Int → Except (ErrorKind × String) (List Grid × List Int)
  | [] => Except.ok ([], [])
  | year :: rest =>
    match fetch year with
    | Except.error e => Except.error e
    | Except.ok contributions =>
      let warns :=
        match genAscii contributions year (year == startYear) with
        | Except.error _ => [year]
        | Except.ok _ => []
      match processYears fetch genAscii startYear rest with
      | Except.error e => Except.error e
      | Except.ok (grids, laterWarns) =>
        Except.ok (contributions :: grids, warns ++ laterWarns)

/-! ## geometry package: image rasterizer pixel filter -/

/-- One source pixel's color as returned by Go's `image.Color.RGBA()`:
four 16-bit channel values in `0 .. 65535`. -/
structure RGBA where
  r : ℕ
  g : ℕ
  b : ℕ
  a : ℕ
deriving DecidableEq, Repr

/-- Embeds `renderImage`'s per-pixel test `a > 32768 && r > 32768`: the
pixel produces a voxel exactly when both the alpha and the red channel
are strictly greater than 32768. -/
def pixelEmitsVoxel (p : RGBA) : Bool :=
  decide (32768 < p.a) && decide (32768 < p.r)

/-- Embeds the pixel scan of `renderImage`: the (x, y) positions that
produce a voxel, with x ascending over the image width and y descending
over the height as in the source loop. The geometric placement of each
voxel is common to all emitted pixels and not part of the emit/skip
decision. -/
def renderImagePixels (width height : ℕ) (img : ℕ → ℕ → RGBA) : List (ℕ × ℕ) :=
  (List.range width).flatMap (fun x =>
    ((List.range height).reverse.filter (fun y => pixelEmitsVoxel (img x y))).map
      (fun y => (x, y)))

/-- Computational characterization of `classifyLevel`: the rational
threshold comparisons against `1/3` and `2/3` amount to integer
comparisons of `3 * count` against the (clamped) maximum and its double. -/
theorem classifyLevel_eq (count maxCount : ℕ) :
    classifyLevel count maxCount =
      if count = 0 then .sky
      else if 3 * count ≤ max maxCount 1 then .low
      else if 3 * count ≤ 2 * max maxCount 1 then .medium
      else .high := by
  unfold classifyLevel normalize levelOfNormalized
  have hm : (0 : ℚ) < (max maxCount 1 : ℕ) := by
    have : 1 ≤ max maxCount 1 := le_max_right _ _
    exact_mod_cast Nat.lt_of_lt_of_le Nat.zero_lt_one this
  have h0 : ((count : ℚ) / (max maxCount 1 : ℕ) = 0) ↔ count = 0 := by
    rw [div_eq_zero_iff]
    constructor
    · rintro (h | h)
      · exact_mod_cast h
      · exact absurd h (ne_of_gt hm)
    · intro h
      exact Or.inl (by exact_mod_cast h)
  have h13 : ((count : ℚ) / (max maxCount 1 : ℕ) ≤ 1/3) ↔
      3 * count ≤ max maxCount 1 := by
    rw [div_le_div_iff₀ hm (by norm_num : (0:ℚ) < 3)]
    constructor
    · intro h
      have : (3 * count : ℚ) ≤ (max maxCount 1 : ℕ) := by linarith
      exact_mod_cast this
    · intro h
      have : (3 * count : ℚ) ≤ (max maxCount 1 : ℕ) := by exact_mod_cast h
      linarith
  have h23 : ((count : ℚ) / (max maxCount 1 : ℕ) ≤ 2/3) ↔
      3 * count ≤ 2 * max maxCount 1 := by
    rw [div_le_div_iff₀ hm (by norm_num : (0:ℚ) < 3)]
    constructor
    · intro h
      have : (3 * count : ℚ) ≤ 2 * (max maxCount 1 : ℕ) := by linarith
      exact_mod_cast this
    · intro h
      have : (3 * count : ℚ) ≤ 2 * (max maxCount 1 : ℕ) := by exact_mod_cast h
      linarith
  simp only [h0, h13, h23]

/-- Level classification as a function of the normalized value, for
nonnegative inputs: each level is selected exactly on its interval. -/
theorem levelOfNormalized_iff (q : ℚ) (hq : 0 ≤ q) :
    (levelOfNormalized q = .sky ↔ q = 0) ∧
    (levelOfNormalized q = .low ↔ 0 < q ∧ q ≤ 1/3) ∧
    (levelOfNormalized q = .medium ↔ 1/3 < q ∧ q ≤ 2/3) ∧
    (levelOfNormalized q = .high ↔ 2/3 < q) := by
  unfold levelOfNormalized
  by_cases h1 : q = 0
  · subst h1
    rw [if_pos rfl]
    exact ⟨iff_of_true rfl rfl,
           iff_of_false (by simp) (by norm_num),
           iff_of_false (by simp) (by norm_num),
           iff_of_false (by simp) (by norm_num)⟩
  · have hq' : 0 < q := lt_of_le_of_ne hq (Ne.symm h1)
    rw [if_neg h1]
    by_cases h2 : q ≤ 1/3
    · rw [if_pos h2]
      refine ⟨iff_of_false (by simp) h1, iff_of_true rfl ⟨hq', h2⟩,
              iff_of_false (by simp) ?_, iff_of_false (by simp) ?_⟩
      · rintro ⟨h, -⟩
        linarith
      · intro h
        linarith
    · rw [if_neg h2]
      push_neg at h2
      by_cases h3 : q ≤ 2/3
      · rw [if_pos h3]
        refine ⟨iff_of_false (by simp) h1, iff_of_false (by simp) ?_,
                iff_of_true rfl ⟨h2, h3⟩, iff_of_false (by simp) ?_⟩
        · rintro ⟨-, h⟩
          linarith
        · intro h
          linarith
      · rw [if_neg h3]
        push_neg at h3
        refine ⟨iff_of_false (by simp) h1, iff_of_false (by simp) ?_,
                iff_of_false (by simp) ?_, iff_of_true rfl h3⟩
        · rintro ⟨-, h⟩
          linarith
        · rintro ⟨-, h⟩
          linarith

/-- C1: The height classifier maps a day's count and the grid maximum to
a level via `normalized = count / max(maxCount, 1)`: Sky exactly when
the normalized value is 0, Low when it lies in `(0, 1/3]`, Medium in
`(1/3, 2/3]`, High above `2/3`; in particular a count of 0 classifies as
Sky for every maximum. -/
theorem classifyLevel_spec (count maxCount : ℕ) :
    (classifyLevel count maxCount = .sky ↔ normalize count maxCount = 0) ∧
    (classifyLevel count maxCount = .low ↔
      0 < normalize count maxCount ∧ normalize count maxCount ≤ 1/3) ∧
    (classifyLevel count maxCount = .medium ↔
      1/3 < normalize count maxCount ∧ normalize count maxCount ≤ 2/3) ∧
    (classifyLevel count maxCount = .high ↔ 2/3 < normalize count maxCount) ∧
    classifyLevel 0 maxCount = .sky := by
  have hn : 0 ≤ normalize count maxCount := by
    unfold normalize
    positivity
  obtain ⟨h1, h2, h3, h4⟩ := levelOfNormalized_iff (normalize count maxCount) hn
  refine ⟨h1, h2, h3, h4, ?_⟩
  have h0 : normalize 0 maxCount = 0 := by
    unfold normalize
    simp
  unfold classifyLevel
  rw [h0]
  rfl

/-- C2: A non-zero day's stacking role is Foundation at index 0 among
the week's non-zero days, Top at the last non-zero index when that index
is not 0, and Middle otherwise; a week with exactly one non-zero day
therefore gets the Foundation role, never Top, and its `getBlock` glyph
is a body glyph rather than a spire. -/
theorem getBlockRole_spec (dayIndex nonZeroCount : ℕ) :
    (dayIndex = 0 → getBlockRole dayIndex nonZeroCount = .foundation) ∧
    (dayIndex = nonZeroCount - 1 → dayIndex ≠ 0 →
      getBlockRole dayIndex nonZeroCount = .top) ∧
    (dayIndex ≠ 0 → dayIndex ≠ nonZeroCount - 1 →
      getBlockRole dayIndex nonZeroCount = .middle) ∧
    (nonZeroCount = 1 →
      getBlockRole 0 nonZeroCount = .foundation ∧
      getBlockRole 0 nonZeroCount ≠ .top ∧
      ∀ q : ℚ, q ≠ 0 → getBlock q 0 nonZeroCount = .body (levelOfNormalized q)) := by
  refine ⟨?_, ?_, ?_, ?_⟩
  · intro h
    unfold getBlockRole
    rw [if_pos h]
  · intro h hne
    unfold getBlockRole
    rw [if_neg hne, if_pos h]
  · intro hne hlast
    unfold getBlockRole
    rw [if_neg hne, if_neg hlast]
  · intro h
    subst h
    refine ⟨by simp [getBlockRole], by simp [getBlockRole], ?_⟩
    intro q hq
    simp [getBlock, getBlockRole, hq]

/-- Witness for `getBlockRole_spec` at concrete indices: index 0 of 1 is
Foundation and not Top, index 2 of 3 is Top, index 1 of 3 is Middle. -/
theorem getBlockRole_spec_witness :
    getBlockRole 0 1 = .foundation ∧
    getBlockRole 2 3 = .top ∧
    getBlockRole 1 3 = .middle ∧
    getBlockRole 0 1 ≠ .top :=
  ⟨(getBlockRole_spec 0 1).1 rfl,
   (getBlockRole_spec 2 3).2.1 (by decide) (by decide),
   (getBlockRole_spec 1 3).2.2.1 (by decide) (by decide),
   ((getBlockRole_spec 0 1).2.2.2 rfl).2.1⟩

/-- C3: for a fixed positive maximum, classification is monotone in the
count under the ordering Sky < Low < Medium < High. -/
theorem classifyLevel_monotone (m c1 c2 : ℕ) (hm : 0 < m) (hlt : c1 < c2) :
    (classifyLevel c1 m).rank ≤ (classifyLevel c2 m).rank := by
  have hmax : max m 1 = m := Nat.max_eq_left hm
  rw [classifyLevel_eq, classifyLevel_eq, hmax]
  split_ifs <;> simp only [HeightLevel.rank] <;> omega

/-- Witness for `classifyLevel_monotone` at maximum 3 and counts 1 < 2:
Low is at most Medium. -/
theorem classifyLevel_monotone_witness :
    (0 < 3 ∧ 1 < 2) ∧ (classifyLevel 1 3).rank ≤ (classifyLevel 2 3).rank :=
  ⟨⟨by decide, by decide⟩, classifyLevel_monotone 3 1 2 (by decide) (by decide)⟩

/-- C4 counterexample: a pixel whose alpha and red channels are both
exactly 32768 exceeds half of the 16-bit channel maximum 65535 in both
channels, yet the rasterizer's scan emits no voxel for it. -/
theorem renderImagePixels_counterexample :
    65535 < 2 * 32768 ∧
    renderImagePixels 1 1 (fun _ _ => ⟨32768, 32768, 32768, 32768⟩) = [] := by
  constructor
  · norm_num
  · rfl

/-- C4 (amended): the image rasterizer's scan emits a voxel for a
position exactly when it lies in the image bounds and the pixel's alpha
and red channels are both strictly greater than 32768; a pixel failing
either channel test produces no voxel. -/
theorem renderImagePixels_spec (width height : ℕ) (img : ℕ → ℕ → RGBA)
    (x y : ℕ) :
    (x, y) ∈ renderImagePixels width height img ↔
      x < width ∧ y < height ∧
        32768 < (img x y).a ∧ 32768 < (img x y).r := by
  unfold renderImagePixels pixelEmitsVoxel
  simp only [List.mem_flatMap, List.mem_map, List.mem_filter, List.mem_reverse,
    List.mem_range, Bool.and_eq_true, decide_eq_true_eq, Prod.mk.injEq]
  constructor
  · rintro ⟨x', hx', y', ⟨hy', ha, hr⟩, hxx, hyy⟩
    subst hxx
    subst hyy
    exact ⟨hx', hy', ha, hr⟩
  · rintro ⟨hx, hy, ha, hr⟩
    exact ⟨x, hx, y, ⟨hy, ha, hr⟩, rfl, rfl⟩

/-- C5 counterexample: the header line `"testuser 2023"` contains a
space — the `EmptyBlock` character — and is not made solely of spaces,
so the code's detection already fires on it; the first line containing a
body or foundation glyph is the grid row below, yet the subsequent-year
output keeps the header line instead of discarding it. -/
theorem printedForYear_counterexample :
    lineHasBodyGlyph "testuser 2023".toList = false ∧
    lineHasBodyGlyph "░▒".toList = true ∧
    printedForYear false ["testuser 2023".toList, "░▒".toList] ≠
      List.drop 1 ["testuser 2023".toList, "░▒".toList] := by
  refine ⟨?_, ?_, ?_⟩ <;> decide

/-- C5 (amended): for every later year, the orchestrator prints from the
first line that contains a space (`EmptyBlock`) or a `'░'`
(`FoundationLow`) and is not made solely of spaces, discarding all
preceding lines; when no line qualifies, the block is printed in full;
the first year's block is always printed in full. -/
theorem printedForYear_amended :
    (∀ lines : List (List Char), printedForYear true lines = lines) ∧
    (∀ (lines : List (List Char)) (i : ℕ), i < lines.length →
      lineStartsGrid (lines.getD i []) = true →
      (∀ j, j < i → lineStartsGrid (lines.getD j []) = false) →
      printedForYear false lines = lines.drop i) ∧
    (∀ lines : List (List Char), (∀ l ∈ lines, lineStartsGrid l = false) →
      printedForYear false lines = lines) := by
  refine ⟨fun lines => rfl, ?_, ?_⟩
  · intro lines i hi hP hmin
    have hfind : lines.findIdx? lineStartsGrid = some i := by
      rw [List.findIdx?_eq_some_iff_findIdx_eq]
      refine ⟨hi, (List.findIdx_eq hi).2 ⟨?_, fun j hj => ?_⟩⟩
      · rw [← List.getD_eq_getElem lines [] hi]
        exact hP
      · rw [← List.getD_eq_getElem lines [] (hj.trans hi)]
        exact hmin j hj
    simp [printedForYear, gridStartIdx, hfind]
  · intro lines hall
    have hfind : lines.findIdx? lineStartsGrid = none :=
      List.findIdx?_eq_none_iff.mpr hall
    simp [printedForYear, gridStartIdx, hfind]

/-- Witness for `printedForYear_amended`: the first year keeps a
header-plus-grid block whole; a later year drops a blank line before the
first qualifying grid row; and a later-year block with no qualifying
line (no spaces, no `'░'`) is printed in full. -/
theorem printedForYear_amended_witness :
    printedForYear true ["testuser 2023".toList, " ░".toList] =
      ["testuser 2023".toList, " ░".toList] ∧
    printedForYear false [[], " ░".toList] = List.drop 1 [[], " ░".toList] ∧
    printedForYear false [['a'], ['b']] = [['a'], ['b']] :=
  ⟨printedForYear_amended.1 ["testuser 2023".toList, " ░".toList],
   printedForYear_amended.2.1 [[], " ░".toList] 1 (by decide) (by decide)
     (by
       intro j hj
       have hj0 : j = 0 := by omega
       subst hj0
       decide),
   printedForYear_amended.2.2 [['a'], ['b']] (by decide)⟩

/-- C6: when every year's fetch succeeds, an ASCII failure is only
recorded as a warning for its year: `processYears` returns `ok`, with
every year's grid collected (so STL generation proceeds for that year
and all later years), whatever the ASCII generator returns. -/
theorem processYears_ascii_failure_recovered
    (fetch : Int → Except (ErrorKind × String) Grid)
    (genAscii : Grid → Int → Bool → Except (ErrorKind × String) (List AsciiLine))
    (g : Int → Grid) (startYear : Int) (years : List Int)
    (hfetch : ∀ y ∈ years, fetch y = Except.ok (g y)) :
    processYears fetch genAscii startYear years =
      Except.ok (years.map g,
        years.filter (fun y => !(genAscii (g y) y (y == startYear)).isOk)) := by
  induction years with
  | nil => rfl
  | cons y rest ih =>
    have hy : fetch y = Except.ok (g y) := hfetch y (List.mem_cons_self y rest)
    have hrest : ∀ z ∈ rest, fetch z = Except.ok (g z) := fun z hz =>
      hfetch z (List.mem_cons_of_mem y hz)
    unfold processYears
    rw [hy, ih hrest]
    cases hgen : genAscii (g y) y (y == startYear) <;>
      simp [hgen, List.filter_cons, Except.isOk, Except.toBool]

/-- Witness for `processYears_ascii_failure_recovered`: with two years
whose fetches succeed and an ASCII generator that always fails, the call
still returns `ok` with both grids and warnings for both years. -/
theorem processYears_ascii_failure_recovered_witness :
    processYears (fun _ => Except.ok ([] : Grid))
        (fun _ _ _ => Except.error (ErrorKind.io, "ascii failed")) 2020 [2020, 2021] =
      Except.ok ([[], []], [2020, 2021]) := by
  have h := processYears_ascii_failure_recovered
      (fun _ => Except.ok ([] : Grid))
      (fun _ _ _ => Except.error (ErrorKind.io, "ascii failed"))
      (fun _ => ([] : Grid)) 2020 [2020, 2021] (fun y _ => rfl)
  simpa using h

/-- C7: the (spec-modelled) ASCII renderer rejects exactly the grid with
zero weeks, for every username, year, flag choice and current day: the
empty grid produces a validation error and any non-empty grid succeeds. -/
theorem generateASCII_validation (grid : Grid) (user : String) (year : Int)
    (includeHeader includeFooter : Bool) (today : ℕ) :
    (grid = [] →
      GenerateASCII grid user year includeHeader includeFooter today =
        Except.error (.validation, "grid cannot be empty")) ∧
    (grid ≠ [] →
      (GenerateASCII grid user year includeHeader includeFooter today).isOk = true) := by
  constructor
  · intro h
    subst h
    rfl
  · intro h
    unfold GenerateASCII
    rw [if_neg (by simpa using h)]
    rfl

/-- Witness for `generateASCII_validation`: the empty grid errors and a
one-week grid succeeds. -/
theorem generateASCII_validation_witness :
    GenerateASCII [] "testuser" 2023 false false 0 =
      Except.error (.validation, "grid cannot be empty") ∧
    (GenerateASCII [[⟨5, 1⟩]] "testuser" 2023 true true 400).isOk = true :=
  ⟨(generateASCII_validation [] "testuser" 2023 false false 0).1 rfl,
   (generateASCII_validation [[⟨5, 1⟩]] "testuser" 2023 true true 400).2 (by decide)⟩

/-- `strings.Split` on a string not containing the separator yields the
single whole string. -/
theorem splitOnChar_of_not_contains (sep : Char) (l : List Char)
    (h : l.contains sep = false) : splitOnChar sep l = [l] := by
  induction l with
  | nil => rfl
  | cons c rest ih =>
    simp only [List.contains_cons, Bool.or_eq_false_iff, beq_eq_false_iff_ne] at h
    have hne : ¬ c = sep := fun hc => h.1 hc.symm
    unfold splitOnChar
    rw [ih h.2]
    simp [hne]

/-- C8 counterexample: the input `"2024"` splits on `-` into one part —
a number of parts other than two — yet `ParseYearRange` succeeds with
`(2024, 2024)` rather than failing with "invalid year range format". -/
theorem parseYearRange_single_part_counterexample :
    (splitOnChar '-' "2024".toList).length = 1 ∧
    ParseYearRange 2025 "2024" = Except.ok (2024, 2024) :=
  ⟨rfl, rfl⟩

/-- C8 (amended): `ParseYearRange` parses `"2020-2024"` to `(2020, 2024)`
whenever the current year allows it; every input containing `-` whose
split has a number of parts other than two fails with exactly
"invalid year range format"; and every input one of whose split parts is
not a decimal integer fails. -/
theorem parseYearRange_amended :
    (∀ cy : Int, 2024 ≤ cy →
      ParseYearRange cy "2020-2024" = Except.ok (2020, 2024)) ∧
    (∀ (cy : Int) (s : String), s.toList.contains '-' = true →
      (splitOnChar '-' s.toList).length ≠ 2 →
      ParseYearRange cy s = Except.error "invalid year range format") ∧
    (∀ (cy : Int) (s : String),
      (∃ p ∈ splitOnChar '-' s.toList, atoi (String.mk p) = none) →
      (ParseYearRange cy s).isOk = false) := by
  refine ⟨?_, ?_, ?_⟩
  · intro cy hcy
    have hv : validateYearRange cy 2020 2024 = none := by
      unfold validateYearRange githubLaunchYear
      rw [if_neg (by omega), if_neg (by omega)]
    have hstep : ParseYearRange cy "2020-2024" =
        (match validateYearRange cy 2020 2024 with
         | some msg => Except.error msg
         | none => Except.ok (2020, 2024)) := rfl
    rw [hstep, hv]
  · intro cy s hcont hlen
    unfold ParseYearRange
    rw [if_pos hcont]
    rw [if_pos (show (List.map String.mk (splitOnChar '-' s.toList)).length ≠ 2 by
      simpa using hlen)]
    rfl
  · intro cy s hex
    obtain ⟨p, hp, hpnone⟩ := hex
    by_cases hcont : s.toList.contains '-' = true
    · by_cases hlen : (splitOnChar '-' s.toList).length = 2
      · obtain ⟨p0, p1, hsplit⟩ := List.length_eq_two.mp hlen
        rw [hsplit] at hp
        unfold ParseYearRange
        rw [if_pos hcont, hsplit]
        rw [if_neg (show ¬(List.map String.mk [p0, p1]).length ≠ 2 by simp)]
        simp only [List.map_cons, List.map_nil, List.headD_cons, List.drop_succ_cons,
          List.drop_zero]
        rcases List.mem_pair.mp hp with hp0 | hp1
        · subst hp0
          rw [hpnone]
          cases atoi (String.mk p1) <;> rfl
        · subst hp1
          rw [hpnone]
          cases atoi (String.mk p0) <;> rfl
      · have herr := hlen
        unfold ParseYearRange
        rw [if_pos hcont]
        rw [if_pos (show (List.map String.mk (splitOnChar '-' s.toList)).length ≠ 2 by
          simpa using herr)]
        rfl
    · have hcf : s.toList.contains '-' = false := by
        simpa using hcont
      have hsingle := splitOnChar_of_not_contains '-' s.toList hcf
      rw [hsingle] at hp
      have hps : p = s.toList := by simpa using hp
      subst hps
      have hmk : String.mk s.toList = s := by
        cases s
        rfl
      rw [hmk] at hpnone
      unfold ParseYearRange
      rw [if_neg (by simpa using hcont), hpnone]
      rfl

/-- Witness for `parseYearRange_amended` at the current year 2025 and
the three test inputs. -/
theorem parseYearRange_amended_witness :
    ParseYearRange 2025 "2020-2024" = Except.ok (2020, 2024) ∧
    ParseYearRange 2025 "2020-2024-2025" = Except.error "invalid year range format" ∧
    (ParseYearRange 2025 "abc-2024").isOk = false :=
  ⟨parseYearRange_amended.1 2025 (by decide),
   parseYearRange_amended.2.1 2025 "2020-2024-2025" (by decide) (by decide),
   parseYearRange_amended.2.2 2025 "abc-2024"
     ⟨"abc".toList, by decide, rfl⟩⟩

/-- C9: the year-range formatter prints the bare year when the ends
agree and `%04d-%02d` of the start year and the end year mod 100
otherwise; the output filename is `<user>-<years>-github-skyline.stl`
when no override is given, and a non-empty override lacking the `.stl`
suffix is returned with `.stl` appended. -/
theorem formatting_spec :
    FormatYearRange 2024 2024 = "2024" ∧
    FormatYearRange 2020 2024 = "2020-24" ∧
    (∀ s e : ℕ, s ≠ e →
      FormatYearRange s e = padZeros 4 s ++ "-" ++ padZeros 2 (e % 100)) ∧
    GenerateOutputFilename "testuser" 2024 2024 "" =
      "testuser-2024-github-skyline.stl" ∧
    (∀ (user : String) (s e : ℕ) (out : String), out ≠ "" →
      ".stl".toList.isSuffixOf (out.toList.map charToLower) = false →
      GenerateOutputFilename user s e out = out ++ ".stl") ∧
    GenerateOutputFilename "testuser" 2024 2024 "myoutput" = "myoutput.stl" := by
  refine ⟨rfl, rfl, ?_, rfl, ?_, rfl⟩
  · intro s e h
    unfold FormatYearRange
    rw [if_neg h]
  · intro user s e out hne hsuf
    have hs : ¬(".stl".toList.isSuffixOf (out.toList.map charToLower) = true) := by
      rw [hsuf]
      simp
    unfold GenerateOutputFilename
    rw [if_pos hne, if_pos hs]

/-- Witness for `formatting_spec` on a concrete multi-year range and a
concrete suffix-free override. -/
theorem formatting_spec_witness :
    FormatYearRange 2021 2022 = padZeros 4 2021 ++ "-" ++ padZeros 2 (2022 % 100) ∧
    GenerateOutputFilename "u" 2020 2021 "model" = "model" ++ ".stl" :=
  ⟨formatting_spec.2.2.1 2021 2022 (by decide),
   formatting_spec.2.2.2.2.1 "u" 2020 2021 "model" (by decide) (by rfl)⟩

/-- C10: for every start year, `validateYearRange` fails whenever the
end year is strictly greater than the current year, with the message
"years must be between 2008 and <currentYear>" — even when the start
year is at least 2008 and not after the end year. -/
theorem validateYearRange_future_end (cy s e : Int) (h : cy < e) :
    validateYearRange cy s e =
      some ("years must be between 2008 and " ++ toString cy) := by
  unfold validateYearRange
  rw [if_pos (Or.inr h)]
  rfl

/-- Witness for `validateYearRange_future_end`: a range ending in 2030
against the current year 2025, with a start year inside `[2008, 2030]`. -/
theorem validateYearRange_future_end_witness :
    validateYearRange 2025 2020 2030 = some "years must be between 2008 and 2025" :=
  validateYearRange_future_end 2025 2020 2030 (by decide)

end GhSkyline

example : GhSkyline.classifyLevel 0 7 = .sky := by simp [GhSkyline.classifyLevel_eq]
example : GhSkyline.classifyLevel 1 5 = .low := by simp [GhSkyline.classifyLevel_eq]
example : GhSkyline.classifyLevel 1 2 = .medium := by simp [GhSkyline.classifyLevel_eq]
example : GhSkyline.classifyLevel 4 5 = .high := by simp [GhSkyline.classifyLevel_eq]
example : GhSkyline.getBlockRole 0 1 = .foundation := by decide
example : GhSkyline.getBlockRole 2 3 = .top := by decide
example : GhSkyline.getBlockRole 1 3 = .middle := by decide

example : GhSkyline.atoi "2024" = some 2024 := by rfl
example : GhSkyline.atoi "abc" = none := by rfl
example : GhSkyline.ParseYearRange 2025 "2020-2024" = .ok (2020, 2024) := by rfl
example : GhSkyline.ParseYearRange 2025 "2020-2024-2025" =
    .error "invalid year range format" := by rfl
example : GhSkyline.ParseYearRange 2025 "2024" = .ok (2024, 2024) := by rfl
example : GhSkyline.FormatYearRange 2020 2024 = "2020-24" := by rfl
example : GhSkyline.GenerateOutputFilename "testuser" 2024 2024 "" =
    "testuser-2024-github-skyline.stl" := by rfl
example : GhSkyline.GenerateOutputFilename "testuser" 2024 2024 "myoutput" =
    "myoutput.stl" := by rfl
